import Mathlib

/-!
Verification of the mining-analyst Streamlit agent (src/mbsaiagent.py).

The program is a thin orchestration layer: a class wrapping two remote
gateways (chat completion, ticker lookup) plus a widget-driven shell.
External effects are embedded by passing the outcome of each remote call
as an explicit parameter (success payload or raised-exception message),
and by threading the module-global client state explicitly.
-/

namespace Mbsai

/-- A Python value appearing in the market-data dictionaries: either a value
obtained from the provider info mapping, or a Python string literal appearing
in the source (the sentinel "N/A", or the stringified exception). -/
inductive PyVal (α : Type) where
  | obj (a : α)
  | strv (s : String)
deriving DecidableEq, Repr

/-- The module-level mutable state of the openai client library: the global
attribute openai.api_key assigned in MiningBusinessAnalyst.__init__ (line 8). -/
structure OpenAIState where
  api_key : String
deriving DecidableEq, Repr

/-- The analyst object. Its __init__ stores nothing on self: the structure has
no fields, faithful to lines 7-8 of the source. -/
structure MiningBusinessAnalyst
deriving DecidableEq, Repr

/-- MiningBusinessAnalyst.__init__(api_key): writes the key into the
module-global openai.api_key and returns the (stateless) object. -/
def MiningBusinessAnalyst.init (api_key : String) (_g : OpenAIState) :
    MiningBusinessAnalyst × OpenAIState :=
  (⟨⟩, { api_key := api_key })

/-- One message of the chat-completion payload. -/
structure ChatMessage where
  role : String
  content : String
deriving DecidableEq, Repr

/-- The payload of one call to openai.ChatCompletion.create, together with the
module-global api key the client library reads implicitly. -/
structure ChatRequest where
  model : String
  temperature : ℚ
  messages : List ChatMessage
  api_key : String
deriving DecidableEq, Repr

/-- The part of the f-string system prompt (lines 12-21) before the context. -/
def sysPromptHead : String :=
  "You are an expert mining business analyst specializing in:\n            - Market analysis\n            - Strategy development\n            - Investment recommendations\n            - Operational optimization\n            - Risk assessment\n            \n            Current context: "

/-- The part of the f-string system prompt (lines 12-21) after the context. -/
def sysPromptTail : String :=
  "\n            \n            Provide detailed, actionable insights."

/-- The full system prompt built by analyze_query for a given context string. -/
def mkSystemPrompt (context : String) : String :=
  sysPromptHead ++ context ++ sysPromptTail

/-- The single chat-completion request issued by analyze_query (lines 23-30):
model "gpt-4", temperature 0.7, system message then user message. The api key
is read from the module-global state, not from the object. -/
def analyze_query_request (_a : MiningBusinessAnalyst) (g : OpenAIState)
    (query context : String) : ChatRequest :=
  { model := "gpt-4"
    temperature := 7/10
    messages := [⟨"system", mkSystemPrompt context⟩, ⟨"user", query⟩]
    api_key := g.api_key }

/-- Outcome of the remote chat-completion call: either the extracted content
response.choices[0].message.content, or the message of a raised exception
(any failure inside the try block of lines 11-31). -/
inductive ChatOutcome where
  | ok (content : String)
  | exn (msg : String)
deriving DecidableEq, Repr

/-- analyze_query (lines 10-33): returns the completion content on success and
the string "Error: " ++ str(e) when any exception is raised; the except clause
makes the function total, so no exception propagates. -/
def analyze_query (_a : MiningBusinessAnalyst) (o : ChatOutcome)
    (_query _context : String) : String :=
  match o with
  | .ok content => content
  | .exn e => "Error: " ++ e

/-- Outcome of the remote ticker lookup yf.Ticker(symbol).info: either an info
mapping (a partial map from field names to provider values), or the message of
a raised exception. -/
inductive TickerOutcome (α : Type) where
  | ok (info : String → Option α)
  | exn (msg : String)

/-- Python info.get(key, "N/A"): the provider value when present, else the
sentinel string. -/
def infoGet {α : Type} (info : String → Option α) (key : String) : PyVal α :=
  match info key with
  | some a => .obj a
  | none => .strv "N/A"

/-- get_market_data (lines 35-49) as an association list, preserving the order
of the dict literal: seven fixed fields on success, a single error field when
the lookup raises. -/
def get_market_data {α : Type} (_a : MiningBusinessAnalyst)
    (o : TickerOutcome α) : List (String × PyVal α) :=
  match o with
  | .ok info =>
      [("price", infoGet info "currentPrice"),
       ("volume", infoGet info "volume"),
       ("market_cap", infoGet info "marketCap"),
       ("pe_ratio", infoGet info "forwardPE"),
       ("dividend_yield", infoGet info "dividendYield"),
       ("52w_high", infoGet info "fiftyTwoWeekHigh"),
       ("52w_low", infoGet info "fiftyTwoWeekLow")]
  | .exn e => [("error", .strv e)]

/-- The widget values of one render pass of main: the sidebar key field, the
Business Analysis tab selections, the Market Data tab symbol, and the Custom
Query tab text, plus which buttons were pressed. -/
structure UIInputs where
  api_key : String
  analysis_type : String
  commodity : String
  region : String
  operation_type : String
  risk_focus : List String
  company : String
  generate_clicked : Bool
  symbol : String
  custom_query : String
  custom_clicked : Bool
deriving DecidableEq, Repr

/-- Python str.join: sep.join(xs). -/
def pyJoin (sep : String) : List String → String
  | [] => ""
  | [x] => x
  | x :: y :: xs => x ++ sep ++ pyJoin sep (y :: xs)

/-- The query string assembled by the Business Analysis tab (lines 98-129):
one template per analysis type, the final branch being the else branch for
Competitor Analysis. -/
def buildQuery (ui : UIInputs) : String :=
  if ui.analysis_type = "Market Research" then
    "Provide a comprehensive market analysis for " ++ ui.commodity ++
      " mining industry, including current trends, prices, demand-supply dynamics, and future outlook."
  else if ui.analysis_type = "Investment Strategy" then
    "Develop an investment strategy for mining operations in " ++ ui.region ++
      ", including key opportunities, risks, and recommendations."
  else if ui.analysis_type = "Operational Analysis" then
    "Analyze operational considerations, best practices, and optimization strategies for " ++
      ui.operation_type ++ " mining operations."
  else if ui.analysis_type = "Risk Assessment" then
    "Provide a detailed risk assessment for mining operations focusing on " ++
      pyJoin ", " ui.risk_focus ++ " risks."
  else
    "Analyze the competitive position, strengths, weaknesses, and strategy of " ++
      ui.company ++ " in the mining industry."

/-- One outbound remote call observable in a render pass of main. -/
inductive RemoteCall where
  | completion (req : ChatRequest)
  | tickerInfo (symbol : String)
deriving DecidableEq, Repr

/-- Remote calls of the Business Analysis tab (lines 131-134): one completion
per press of the Generate Analysis button, with the assembled query and the
default empty context. -/
def tab1Calls (a : MiningBusinessAnalyst) (g : OpenAIState) (ui : UIInputs) :
    List RemoteCall :=
  if ui.generate_clicked then
    [RemoteCall.completion (analyze_query_request a g (buildQuery ui) "")]
  else []

/-- Remote calls of the Market Data tab (lines 141-143): the lookup runs
whenever the symbol field is truthy, i.e. non-empty. -/
def tab2Calls (ui : UIInputs) : List RemoteCall :=
  if ui.symbol = "" then [] else [RemoteCall.tickerInfo ui.symbol]

/-- Remote calls of the Custom Query tab (lines 175-178): one completion per
press of the button, with the text area content forwarded as the query. -/
def tab3Calls (a : MiningBusinessAnalyst) (g : OpenAIState) (ui : UIInputs) :
    List RemoteCall :=
  if ui.custom_clicked then
    [RemoteCall.completion (analyze_query_request a g ui.custom_query "")]
  else []

/-- One render pass of main (lines 51-178): with an empty api key the function
warns and returns before constructing the analyst (lines 73-75), issuing no
remote call; otherwise it constructs the analyst (line 78) and the three tabs
issue their calls. The Bool records whether the analyst was constructed. -/
def mainTrace (g0 : OpenAIState) (ui : UIInputs) : List RemoteCall × Bool :=
  if ui.api_key = "" then ([], false)
  else
    (tab1Calls (MiningBusinessAnalyst.init ui.api_key g0).1
        (MiningBusinessAnalyst.init ui.api_key g0).2 ui ++
      tab2Calls ui ++
      tab3Calls (MiningBusinessAnalyst.init ui.api_key g0).1
        (MiningBusinessAnalyst.init ui.api_key g0).2 ui,
     true)

/-- The chat-completion requests among a list of remote calls. -/
def completionRequests : List RemoteCall → List ChatRequest
  | [] => []
  | RemoteCall.completion r :: rest => r :: completionRequests rest
  | RemoteCall.tickerInfo _ :: rest => completionRequests rest

/-- The string sub occurs contiguously inside s. -/
def OccursIn (sub s : String) : Prop :=
  ∃ p q, s = p ++ sub ++ q

/-- The string s begins with "Error". -/
def BeginsWithError (s : String) : Prop :=
  ∃ r, s = "Error" ++ r

/-- Modelled from the spec: the role tag of a conversation-history entry of
the chat-shell prototype, which is not under src (src holds only the tabbed
prototype, which keeps no history). -/
inductive Role where
  | user
  | assistant
deriving DecidableEq, Repr

/-- Modelled from the spec: submitting one query appends the (user, query)
entry and then the (assistant, response) entry to the append-only
conversation history of the chat-shell prototype, which is not under src. -/
def submitQuery (hist : List (Role × String)) (q resp : String) :
    List (Role × String) :=
  hist ++ [(Role.user, q), (Role.assistant, resp)]

/-- Modelled from the spec: a session of the chat-shell prototype submits the
listed (query, response) pairs in order, starting from the given history. -/
def runSession (hist : List (Role × String)) :
    List (String × String) → List (Role × String)
  | [] => hist
  | (q, r) :: rest => runSession (submitQuery hist q r) rest

/-- A string with a non-empty left part is non-empty after appending. -/
theorem append_ne_empty_left {s : String} (t : String) (h : s ≠ "") :
    s ++ t ≠ "" := by
  intro he
  apply h
  apply String.ext
  have hd : s.data ++ t.data = [] := by
    have h2 := congrArg String.data he
    simpa using h2
  simpa using (List.append_eq_nil.mp hd).1

/-- The empty string does not begin with "Error". -/
theorem not_beginsWithError_empty : ¬ BeginsWithError "" := by
  rintro ⟨r, hr⟩
  have h := congrArg String.length hr
  rw [String.length_append] at h
  have h0 : ("" : String).length = 0 := rfl
  have h5 : ("Error" : String).length = 5 := rfl
  omega

/-- CORRECTED C1 counterexample: when the completion call succeeds with empty
content, analyze_query returns the empty string, which is neither non-empty
response text nor a string beginning with "Error"; the claimed disjunction
fails. -/
theorem analyze_query_empty_content_violates_claim :
    ¬ (analyze_query ⟨⟩ (ChatOutcome.ok "") "some query" "some context" ≠ "" ∨
       BeginsWithError (analyze_query ⟨⟩ (ChatOutcome.ok "") "some query" "some context")) := by
  rintro (h | h)
  · exact h rfl
  · exact not_beginsWithError_empty h

/-- C1 (amended): analyze_query is total over both outcomes of the remote
call, returning the completion content verbatim on success (with no
non-emptiness check) and a string beginning with "Error" when any exception
is raised; no exception propagates to the caller. -/
theorem analyze_query_returns_content_or_error_string
    (a : MiningBusinessAnalyst) (o : ChatOutcome) (q c : String) :
    (∃ content, o = ChatOutcome.ok content ∧ analyze_query a o q c = content) ∨
    (∃ e, o = ChatOutcome.exn e ∧ analyze_query a o q c = "Error: " ++ e ∧
      BeginsWithError (analyze_query a o q c)) := by
  cases o with
  | ok content => exact Or.inl ⟨content, rfl, rfl⟩
  | exn e =>
      refine Or.inr ⟨e, rfl, rfl, ⟨": " ++ e, ?_⟩⟩
      show "Error: " ++ e = "Error" ++ (": " ++ e)
      have h2 : ("Error: " : String) = "Error" ++ ": " := by decide
      rw [h2, String.append_assoc]

/-- C2: when the provider lookup succeeds, get_market_data returns exactly the
seven fixed keys of the dict literal, in order, and every value is either a
value taken from the provider info mapping or the sentinel "N/A". -/
theorem get_market_data_success_seven_fields {α : Type}
    (info : String → Option α) :
    (get_market_data ⟨⟩ (TickerOutcome.ok info)).map Prod.fst =
      ["price", "volume", "market_cap", "pe_ratio", "dividend_yield",
       "52w_high", "52w_low"] ∧
    (get_market_data ⟨⟩ (TickerOutcome.ok info)).length = 7 ∧
    ∀ kv ∈ get_market_data ⟨⟩ (TickerOutcome.ok info),
      (∃ srcKey v, info srcKey = some v ∧ kv.2 = PyVal.obj v) ∨
        kv.2 = PyVal.strv "N/A" := by
  refine ⟨rfl, rfl, ?_⟩
  intro kv hkv
  have hfield : ∀ (srcKey : String), (∃ v, info srcKey = some v ∧
      infoGet info srcKey = PyVal.obj v) ∨ infoGet info srcKey = PyVal.strv "N/A" := by
    intro srcKey
    unfold infoGet
    cases h : info srcKey with
    | some v => exact Or.inl ⟨v, rfl, rfl⟩
    | none => exact Or.inr rfl
  simp only [get_market_data, List.mem_cons, List.not_mem_nil, or_false] at hkv
  rcases hkv with h | h | h | h | h | h | h <;>
    · subst h
      rcases hfield _ with ⟨v, hv, he⟩ | he
      · exact Or.inl ⟨_, v, hv, he⟩
      · exact Or.inr he

/-- C2 witness: with a provider map defining only currentPrice, the price
entry carries the provider value and all other entries carry the sentinel. -/
theorem get_market_data_success_seven_fields_witness :
    (∃ srcKey v, (fun k => if k = "currentPrice" then some 17 else (none : Option Nat)) srcKey = some v ∧
        (("price", PyVal.obj 17) : String × PyVal Nat).2 = PyVal.obj v) ∨
      (("price", PyVal.obj 17) : String × PyVal Nat).2 = PyVal.strv "N/A" :=
  (get_market_data_success_seven_fields
    (fun k => if k = "currentPrice" then some 17 else none)).2.2
    ("price", PyVal.obj 17) (by simp [get_market_data, infoGet])

/-- CORRECTED C3 counterexample: when the raised exception stringifies to the
empty string, the error map holds an empty message, so no non-empty message
exists for it; the claim as stated fails. -/
theorem get_market_data_error_message_can_be_empty :
    ¬ ∃ msg, msg ≠ "" ∧
      get_market_data (α := Nat) ⟨⟩ (TickerOutcome.exn "") =
        [("error", PyVal.strv msg)] := by
  rintro ⟨msg, hne, heq⟩
  simp [get_market_data] at heq
  exact hne heq.symm

/-- C3 (amended): when the provider lookup raises, get_market_data returns a
mapping with exactly one key, "error", bound to the stringified exception;
the message is non-empty exactly when the stringified exception is. -/
theorem get_market_data_exn_single_error_key {α : Type} (e : String) :
    (get_market_data (α := α) ⟨⟩ (TickerOutcome.exn e)).map Prod.fst = ["error"] ∧
    (get_market_data (α := α) ⟨⟩ (TickerOutcome.exn e)).length = 1 ∧
    get_market_data (α := α) ⟨⟩ (TickerOutcome.exn e) = [("error", PyVal.strv e)] ∧
    (e ≠ "" → (PyVal.strv e : PyVal α) ≠ PyVal.strv "") := by
  refine ⟨rfl, rfl, rfl, ?_⟩
  intro hne heq
  exact hne (by injection heq)

/-- C3 witness: at a concrete non-empty exception message the map is the
single error entry with a non-empty message. -/
theorem get_market_data_exn_single_error_key_witness :
    get_market_data (α := Nat) ⟨⟩ (TickerOutcome.exn "HTTP 404") =
      [("error", PyVal.strv "HTTP 404")] ∧
    (PyVal.strv "HTTP 404" : PyVal Nat) ≠ PyVal.strv "" :=
  ⟨(get_market_data_exn_single_error_key (α := Nat) "HTTP 404").2.2.1,
   (get_market_data_exn_single_error_key (α := Nat) "HTTP 404").2.2.2 (by decide)⟩

/-- C10: the returned mapping contains the key "error" exactly when the
provider lookup raised; a successful lookup never yields an "error" key, so
the membership test of line 145 discriminates failure from success. -/
theorem error_key_iff_lookup_exn {α : Type} (o : TickerOutcome α) :
    "error" ∈ (get_market_data ⟨⟩ o).map Prod.fst ↔
      ∃ e, o = TickerOutcome.exn e := by
  cases o with
  | ok info =>
      constructor
      · intro h
        simp [get_market_data] at h
      · rintro ⟨e, he⟩
        cases he
  | exn e =>
      constructor
      · intro _
        exact ⟨e, rfl⟩
      · intro _
        simp [get_market_data]

/-- Flattened form of a whole session: the final history is the starting
history followed by one user entry and one assistant entry per submission. -/
theorem runSession_eq (qs : List (String × String)) (hist : List (Role × String)) :
    runSession hist qs =
      hist ++ qs.flatMap (fun qr => [(Role.user, qr.1), (Role.assistant, qr.2)]) := by
  induction qs generalizing hist with
  | nil => simp [runSession]
  | cons qr rest ih =>
      obtain ⟨q, r⟩ := qr
      rw [runSession, ih, submitQuery]
      simp

/-- C4: after N submitted queries the conversation history holds exactly 2N
entries, the role tags strictly alternate user then assistant, and each
submission only appends to the existing history. -/
theorem conversation_history_two_per_query_alternating
    (qs : List (String × String)) :
    (runSession [] qs).length = 2 * qs.length ∧
    (runSession [] qs).map Prod.fst =
      (qs.map (fun _ => [Role.user, Role.assistant])).flatten ∧
    ∀ hist q r, ∃ tail, submitQuery hist q r = hist ++ tail := by
  refine ⟨?_, ?_, fun hist q r => ⟨[(Role.user, q), (Role.assistant, r)], rfl⟩⟩
  · rw [runSession_eq, List.nil_append]
    induction qs with
    | nil => rfl
    | cons qr rest ih =>
        simp only [List.flatMap_cons, List.length_append, ih, List.length_cons]
        simp [Nat.mul_succ, Nat.add_comm]
  · rw [runSession_eq, List.nil_append]
    induction qs with
    | nil => rfl
    | cons qr rest ih =>
        simp only [List.flatMap_cons, List.map_append, ih, List.map_cons, List.flatten_cons]
        rfl

/-- C5: with an empty api-key field, main warns and returns before
constructing the analyst: no analyst is built and no remote completion or
market-data call is issued, whatever the other widgets hold. -/
theorem empty_api_key_refuses_and_no_calls (g : OpenAIState) (ui : UIInputs)
    (h : ui.api_key = "") :
    mainTrace g ui = ([], false) := by
  simp [mainTrace, h]

/-- A concrete render pass with an empty key and every button pressed. -/
def uiEmptyKey : UIInputs :=
  { api_key := ""
    analysis_type := "Market Research"
    commodity := "Gold"
    region := "Africa"
    operation_type := "Open Pit"
    risk_focus := ["Environmental", "Market"]
    company := "BHP"
    generate_clicked := true
    symbol := "BHP"
    custom_query := "hello"
    custom_clicked := true }

/-- C5 witness: even with both buttons pressed and a symbol entered, the
empty-key render pass makes no remote call and builds no analyst. -/
theorem empty_api_key_refuses_witness :
    mainTrace ⟨"unset"⟩ uiEmptyKey = ([], false) :=
  empty_api_key_refuses_and_no_calls ⟨"unset"⟩ uiEmptyKey rfl

/-- CORRECTED C9 counterexample: constructing a second analyst with a
different key changes the key used by the first: the first analyst, built
with key1, afterwards issues requests carrying key2. -/
theorem second_init_changes_first_analyst_key :
    (analyze_query_request
        (MiningBusinessAnalyst.init "key1" ⟨"unset"⟩).1
        (MiningBusinessAnalyst.init "key2"
          (MiningBusinessAnalyst.init "key1" ⟨"unset"⟩).2).2
        "some query" "some context").api_key = "key2" ∧
    ("key2" : String) ≠ "key1" :=
  ⟨rfl, by decide⟩

/-- C9 (amended): the analyst object stores no key of its own; __init__
writes the key into module-global client state shared by every analyst, so a
freshly constructed analyst uses the key it was built with, and any analyst
whatsoever uses whichever key was set most recently. -/
theorem api_key_is_global_state (g0 : OpenAIState) (a : MiningBusinessAnalyst)
    (k q c q2 c2 : String) :
    (analyze_query_request (MiningBusinessAnalyst.init k g0).1
        (MiningBusinessAnalyst.init k g0).2 q c).api_key = k ∧
    (analyze_query_request a (MiningBusinessAnalyst.init k g0).2 q2 c2).api_key = k :=
  ⟨rfl, rfl⟩

/-- Occurrence inside a string is preserved by appending on both sides. -/
theorem occursIn_append (sub p s q : String) (h : OccursIn sub s) :
    OccursIn sub (p ++ s ++ q) := by
  obtain ⟨x, y, rfl⟩ := h
  exact ⟨p ++ x, y ++ q, by simp [String.append_assoc]⟩

/-- Every string occurs in itself. -/
theorem occursIn_refl (s : String) : OccursIn s s :=
  ⟨"", "", by simp⟩

/-- Every element of a list occurs in its separator join. -/
theorem mem_occursIn_pyJoin (sep a : String) (l : List String) (h : a ∈ l) :
    OccursIn a (pyJoin sep l) := by
  induction l with
  | nil => cases h
  | cons x xs ih =>
      cases xs with
      | nil =>
          rw [List.mem_singleton] at h
          subst h
          exact occursIn_refl a
      | cons y ys =>
          rw [List.mem_cons] at h
          rcases h with rfl | h
          · exact ⟨"", sep ++ pyJoin sep (y :: ys), by simp [pyJoin, String.append_assoc]⟩
          · obtain ⟨p, q, hpq⟩ := ih h
            refine ⟨x ++ sep ++ p, q, ?_⟩
            rw [pyJoin, hpq]
            simp [String.append_assoc]

/-- C6: for each of the five analysis types of the templated form, the
assembled query string contains the literal selected option value: the
commodity, the region, the operation type, each selected risk area, and the
entered company name, respectively. -/
theorem buildQuery_contains_selected_option (ui : UIInputs) :
    (ui.analysis_type = "Market Research" →
      OccursIn ui.commodity (buildQuery ui)) ∧
    (ui.analysis_type = "Investment Strategy" →
      OccursIn ui.region (buildQuery ui)) ∧
    (ui.analysis_type = "Operational Analysis" →
      OccursIn ui.operation_type (buildQuery ui)) ∧
    (ui.analysis_type = "Risk Assessment" →
      ∀ area ∈ ui.risk_focus, OccursIn area (buildQuery ui)) ∧
    (ui.analysis_type = "Competitor Analysis" →
      OccursIn ui.company (buildQuery ui)) := by
  refine ⟨?_, ?_, ?_, ?_, ?_⟩
  · intro h
    have hb : buildQuery ui =
        "Provide a comprehensive market analysis for " ++ ui.commodity ++
          " mining industry, including current trends, prices, demand-supply dynamics, and future outlook." := by
      simp [buildQuery, h]
    rw [hb]
    exact ⟨_, _, rfl⟩
  · intro h
    have hb : buildQuery ui =
        "Develop an investment strategy for mining operations in " ++ ui.region ++
          ", including key opportunities, risks, and recommendations." := by
      simp [buildQuery, h]
    rw [hb]
    exact ⟨_, _, rfl⟩
  · intro h
    have hb : buildQuery ui =
        "Analyze operational considerations, best practices, and optimization strategies for " ++
          ui.operation_type ++ " mining operations." := by
      simp [buildQuery, h]
    rw [hb]
    exact ⟨_, _, rfl⟩
  · intro h area harea
    have hb : buildQuery ui =
        "Provide a detailed risk assessment for mining operations focusing on " ++
          pyJoin ", " ui.risk_focus ++ " risks." := by
      simp [buildQuery, h]
    rw [hb]
    exact occursIn_append _ _ _ _ (mem_occursIn_pyJoin _ _ _ harea)
  · intro h
    have hb : buildQuery ui =
        "Analyze the competitive position, strengths, weaknesses, and strategy of " ++
          ui.company ++ " in the mining industry." := by
      simp [buildQuery, h]
    rw [hb]
    exact ⟨_, _, rfl⟩

/-- Concrete Market Research selection. -/
@[reducible] def uiMarket : UIInputs :=
  { uiEmptyKey with
    api_key := "sk"
    analysis_type := "Market Research"
    commodity := "Copper" }

/-- Concrete Investment Strategy selection. -/
@[reducible] def uiInvest : UIInputs :=
  { uiEmptyKey with
    api_key := "sk"
    analysis_type := "Investment Strategy"
    region := "Australia" }

/-- Concrete Operational Analysis selection. -/
@[reducible] def uiOps : UIInputs :=
  { uiEmptyKey with
    api_key := "sk"
    analysis_type := "Operational Analysis"
    operation_type := "Underground" }

/-- Concrete Risk Assessment selection. -/
@[reducible] def uiRisk : UIInputs :=
  { uiEmptyKey with
    api_key := "sk"
    analysis_type := "Risk Assessment"
    risk_focus := ["Environmental", "Political"] }

/-- Concrete Competitor Analysis entry. -/
@[reducible] def uiComp : UIInputs :=
  { uiEmptyKey with
    api_key := "sk"
    analysis_type := "Competitor Analysis"
    company := "Rio Tinto" }

/-- C6 witness: each of the five types at a concrete selection, the selected
value occurring in the assembled query. -/
theorem buildQuery_contains_selected_option_witness :
    OccursIn "Copper" (buildQuery uiMarket) ∧
    OccursIn "Australia" (buildQuery uiInvest) ∧
    OccursIn "Underground" (buildQuery uiOps) ∧
    OccursIn "Political" (buildQuery uiRisk) ∧
    OccursIn "Rio Tinto" (buildQuery uiComp) :=
  ⟨(buildQuery_contains_selected_option uiMarket).1 rfl,
   (buildQuery_contains_selected_option uiInvest).2.1 rfl,
   (buildQuery_contains_selected_option uiOps).2.2.1 rfl,
   (buildQuery_contains_selected_option uiRisk).2.2.2.1 rfl "Political" (by decide),
   (buildQuery_contains_selected_option uiComp).2.2.2.2 rfl⟩

/-- The completion projection distributes over list append. -/
theorem completionRequests_append (l1 l2 : List RemoteCall) :
    completionRequests (l1 ++ l2) =
      completionRequests l1 ++ completionRequests l2 := by
  induction l1 with
  | nil => rfl
  | cons c rest ih => cases c <;> simp [completionRequests, ih]

/-- With a non-empty key, every completion request of a render pass is the one
built by the Business Analysis button or the one built by the Custom Query
button. -/
theorem mem_completionRequests_mainTrace (g : OpenAIState) (ui : UIInputs)
    (h : ¬ ui.api_key = "") (r : ChatRequest)
    (hr : r ∈ completionRequests (mainTrace g ui).1) :
    r = analyze_query_request ⟨⟩ ⟨ui.api_key⟩ (buildQuery ui) "" ∨
    r = analyze_query_request ⟨⟩ ⟨ui.api_key⟩ ui.custom_query "" := by
  by_cases h1 : ui.generate_clicked = true <;>
    by_cases h3 : ui.custom_clicked = true <;>
      by_cases hs : ui.symbol = "" <;>
        simp [mainTrace, h, MiningBusinessAnalyst.init, tab1Calls, tab2Calls,
          tab3Calls, h1, h3, hs, completionRequests_append,
          completionRequests] at hr <;>
        tauto

/-- C7: with a non-empty key, a render pass issues exactly one completion
request per pressed analysis button, each request names model "gpt-4", sets
temperature 7/10, and carries the system persona message followed by the user
message holding the query; the system message embeds the context between the
fixed head and tail of the persona prompt. -/
theorem analysis_action_single_completion_request (g : OpenAIState)
    (ui : UIInputs) (h : ¬ ui.api_key = "") :
    (completionRequests (mainTrace g ui).1).length =
      (if ui.generate_clicked = true then 1 else 0) +
        (if ui.custom_clicked = true then 1 else 0) ∧
    (∀ r ∈ completionRequests (mainTrace g ui).1,
      r.model = "gpt-4" ∧ r.temperature = 7/10 ∧
      (r.messages = [⟨"system", mkSystemPrompt ""⟩, ⟨"user", buildQuery ui⟩] ∨
       r.messages = [⟨"system", mkSystemPrompt ""⟩, ⟨"user", ui.custom_query⟩])) ∧
    ∀ (a : MiningBusinessAnalyst) (g2 : OpenAIState) (q c : String),
      (analyze_query_request a g2 q c).messages =
        [⟨"system", sysPromptHead ++ c ++ sysPromptTail⟩, ⟨"user", q⟩] := by
  refine ⟨?_, ?_, fun a g2 q c => rfl⟩
  · by_cases h1 : ui.generate_clicked = true <;>
      by_cases h3 : ui.custom_clicked = true <;>
        by_cases hs : ui.symbol = "" <;>
          simp [mainTrace, h, MiningBusinessAnalyst.init, tab1Calls, tab2Calls,
            tab3Calls, h1, h3, hs, completionRequests_append, completionRequests]
  · intro r hr
    rcases mem_completionRequests_mainTrace g ui h r hr with rfl | rfl
    · exact ⟨rfl, rfl, Or.inl rfl⟩
    · exact ⟨rfl, rfl, Or.inr rfl⟩

/-- A render pass with key "sk", both analysis buttons pressed and a symbol
entered. -/
@[reducible] def uiBoth : UIInputs :=
  { uiEmptyKey with
    api_key := "sk"
    custom_query := "copper outlook" }

/-- C7 witness: at the concrete render pass with both buttons pressed, exactly
two completion requests are issued, and the first carries model "gpt-4". -/
theorem analysis_action_single_completion_request_witness :
    (completionRequests (mainTrace ⟨""⟩ uiBoth).1).length = 2 ∧
    (analyze_query_request ⟨⟩ ⟨"sk"⟩ (buildQuery uiBoth) "").model = "gpt-4" := by
  have h := analysis_action_single_completion_request ⟨""⟩ uiBoth (by decide)
  refine ⟨by simpa [uiBoth, uiEmptyKey] using h.1, (h.2.1 _ ?_).1⟩
  show _ ∈ completionRequests (mainTrace ⟨""⟩ uiBoth).1
  simp [mainTrace, uiBoth, uiEmptyKey, MiningBusinessAnalyst.init, tab1Calls,
    tab2Calls, tab3Calls, completionRequests_append, completionRequests]

/-- A render pass where the custom button is pressed with an empty text area
and a valid key; no other action is taken. -/
def uiEmptyCustom : UIInputs :=
  { api_key := "sk"
    analysis_type := "Market Research"
    commodity := "Gold"
    region := "Africa"
    operation_type := "Open Pit"
    risk_focus := []
    company := "BHP"
    generate_clicked := false
    symbol := ""
    custom_query := ""
    custom_clicked := true }

/-- CORRECTED C8 counterexample: pressing the custom-analysis button with an
empty text area forwards the empty query to the completion gateway: the
render pass issues a completion request whose user message content is the
empty string, so an empty query is forwarded with no validation. -/
theorem custom_tab_forwards_empty_query :
    RemoteCall.completion (analyze_query_request ⟨⟩ ⟨"sk"⟩ "" "") ∈
      (mainTrace ⟨""⟩ uiEmptyCustom).1 ∧
    (analyze_query_request ⟨⟩ ⟨"sk"⟩ "" "").messages.getLast? =
      some ⟨"user", ""⟩ := by
  refine ⟨?_, rfl⟩
  simp [mainTrace, uiEmptyCustom, MiningBusinessAnalyst.init, tab1Calls,
    tab2Calls, tab3Calls]

/-- A ticker lookup appears in a render pass only for the entered symbol, and
only when that symbol is non-empty. -/
theorem tickerInfo_mem_mainTrace (g : OpenAIState) (ui : UIInputs) (s : String)
    (hs : RemoteCall.tickerInfo s ∈ (mainTrace g ui).1) :
    s = ui.symbol ∧ ¬ ui.symbol = "" := by
  by_cases hk : ui.api_key = ""
  · simp [mainTrace, hk] at hs
  · by_cases h1 : ui.generate_clicked = true <;>
      by_cases h3 : ui.custom_clicked = true <;>
        by_cases hsym : ui.symbol = "" <;>
          simp [mainTrace, hk, MiningBusinessAnalyst.init, tab1Calls, tab2Calls,
            tab3Calls, h1, h3, hsym] at hs <;>
          exact ⟨hs, hsym⟩

/-- C8 (amended): the templated queries of the Business Analysis tab are
non-empty by construction and the market-data tab only issues a lookup for a
non-empty symbol, but the custom tab applies no non-emptiness validation:
whenever its button is pressed, the text-area content is forwarded to the
completion gateway verbatim, empty or not. -/
theorem query_validation_only_templated_nonempty (g : OpenAIState)
    (ui : UIInputs) :
    buildQuery ui ≠ "" ∧
    (∀ s, RemoteCall.tickerInfo s ∈ (mainTrace g ui).1 → s ≠ "") ∧
    (¬ ui.api_key = "" → ui.custom_clicked = true →
      RemoteCall.completion
          (analyze_query_request ⟨⟩ ⟨ui.api_key⟩ ui.custom_query "") ∈
        (mainTrace g ui).1) := by
  refine ⟨?_, ?_, ?_⟩
  · unfold buildQuery
    split_ifs <;>
      exact append_ne_empty_left _ (append_ne_empty_left _ (by decide))
  · intro s hs hse
    obtain ⟨h1, h2⟩ := tickerInfo_mem_mainTrace g ui s hs
    rw [h1] at hse
    exact h2 hse
  · intro hk hclick
    by_cases h1 : ui.generate_clicked = true <;>
      by_cases hsym : ui.symbol = "" <;>
        simp [mainTrace, hk, MiningBusinessAnalyst.init, tab1Calls, tab2Calls,
          tab3Calls, h1, hclick, hsym]

/-- The empty-custom render pass with a concrete non-empty custom query. -/
@[reducible] def uiCustom : UIInputs :=
  { uiEmptyCustom with
    custom_query := "copper outlook please" }

/-- C8 amended witness: at a concrete render pass, the templated query is
non-empty and the pressed custom button forwards the entered text. -/
theorem query_validation_only_templated_nonempty_witness :
    buildQuery uiCustom ≠ "" ∧
    RemoteCall.completion
        (analyze_query_request ⟨⟩ ⟨"sk"⟩ "copper outlook please" "") ∈
      (mainTrace ⟨""⟩ uiCustom).1 := by
  have h := query_validation_only_templated_nonempty ⟨""⟩ uiCustom
  exact ⟨h.1, h.2.2 (by decide) (by decide)⟩

end Mbsai
